import Mathlib

/-!
Shallow embedding of the typed decoding layer of `src/data/shared.rs`
(hyprland-rs data module): wire mirror types, domain types and the
normalizers that turn generic key/value wire trees into validated domain
values.  Rust machine integers are embedded as `Int` with explicit range
checks in the decoders (i8 = [-128,127], u8 = [0,255], u16 = [0,65535],
i16 = [-32768,32767], i32/u32 likewise); wire floating point numbers
(`f32`/`f64` fields such as `refreshRate` and `scale`) are embedded as
exact rationals, since no property under study concerns rounding.
Fallible decoding returns `Except DecodeError`; the two `panic!` arms of
`impl From<WorkspaceRaw> for Workspace` are embedded as the distinguished
error `DecodeError.panicked`, so that "the code panics" and "the code
returns a decode error" stay distinguishable in statements.
-/

/-- A generic key/value wire tree: the parsed JSON-like payload that the
decoders consume.  Objects are association lists in reported order. -/
inductive Json where
  | null : Json
  | bool (b : Bool) : Json
  | num (q : Rat) : Json
  | str (s : String) : Json
  | arr (elems : List Json) : Json
  | obj (fields : List (String × Json)) : Json

/-- The decode failure taxonomy (spec section 7), plus `panicked` for the
explicit `panic!` arms present in the source: a panic aborts instead of
being returned, so it is kept distinct from every returned decode error. -/
inductive DecodeError where
  | missingField (name : String) : DecodeError
  | typeMismatch (name : String) : DecodeError
  | unrepresentableSentinel (v : Int) : DecodeError
  | unknownVariant (field : String) : DecodeError
  | panicked (msg : String) : DecodeError
deriving DecidableEq

/-- Modelled from the spec: `crate::shared::Address` is not under `src/`;
the spec describes it as an opaque stable identifier compared as an opaque
token and never parsed for structure, so it wraps the wire string. -/
structure Address where
  addr : String
deriving DecidableEq

/-- Modelled from the spec: `crate::shared::WorkspaceType` is not under
`src/`; the spec's WorkspaceIdentity is the closed union
`Regular(small unsigned integer) | Special`. -/
inductive WorkspaceType where
  | Regular (n : Nat) : WorkspaceType
  | Special : WorkspaceType
deriving DecidableEq

/-- Modelled from the spec: `crate::shared::de_work_id` is not under
`src/`; spec 4.1: returns `Special` iff raw = -99, `Regular n` iff raw is
non-negative and fits an unsigned 8-bit integer, otherwise fails with
`UnrepresentableSentinel`. -/
def decode_workspace_identity (raw : Int) : Except DecodeError WorkspaceType :=
  if raw = -99 then .ok .Special
  else if 0 ≤ raw ∧ raw ≤ 255 then .ok (.Regular raw.toNat)
  else .error (.unrepresentableSentinel raw)

/-- Look up a required field of a wire object (serde: a missing required
field is a decode failure naming the field). -/
def getField (fields : List (String × Json)) (name : String) : Except DecodeError Json :=
  match fields.lookup name with
  | some v => .ok v
  | none => .error (.missingField name)

/-- Decode a wire value as a machine integer of the range [lo, hi]
(serde: a non-integer or out-of-range number is a type mismatch). -/
def asIntRange (name : String) (lo hi : Int) (j : Json) : Except DecodeError Int :=
  match j with
  | .num q => if q.den = 1 ∧ lo ≤ q.num ∧ q.num ≤ hi then .ok q.num else .error (.typeMismatch name)
  | _ => .error (.typeMismatch name)

/-- Decode a wire value as a boolean. -/
def asBool (name : String) (j : Json) : Except DecodeError Bool :=
  match j with
  | .bool b => .ok b
  | _ => .error (.typeMismatch name)

/-- Decode a wire value as a string. -/
def asStr (name : String) (j : Json) : Except DecodeError String :=
  match j with
  | .str s => .ok s
  | _ => .error (.typeMismatch name)

/-- Decode a wire value as a rational number (embedding of the `f32`/`f64`
fields). -/
def asRat (name : String) (j : Json) : Except DecodeError Rat :=
  match j with
  | .num q => .ok q
  | _ => .error (.typeMismatch name)

/-- Embed an integer as a wire number. -/
def jint (i : Int) : Json := .num (i : Rat)

/-- `enum Transforms` of `src/data/shared.rs` lines 30-49: the 8 monitor
transform variants with `repr(u8)` discriminants 0-7. -/
inductive Transforms where
  | Normal : Transforms
  | Normal90 : Transforms
  | Normal180 : Transforms
  | Normal270 : Transforms
  | Flipped : Transforms
  | Flipped90 : Transforms
  | Flipped180 : Transforms
  | Flipped270 : Transforms
deriving DecidableEq

/-- The `Deserialize_repr` decoder of `Transforms`: reads a `u8` wire
number and matches it against the 8 declared discriminants; any other
value is a decode failure, never a default variant. -/
def decodeTransforms (i : Int) : Except DecodeError Transforms :=
  if i < 0 ∨ 255 < i then .error (.typeMismatch "transform")
  else if i = 0 then .ok .Normal
  else if i = 1 then .ok .Normal90
  else if i = 2 then .ok .Normal180
  else if i = 3 then .ok .Normal270
  else if i = 4 then .ok .Flipped
  else if i = 5 then .ok .Flipped90
  else if i = 6 then .ok .Flipped180
  else if i = 7 then .ok .Flipped270
  else .error (.unknownVariant "transform")

/-- The `Serialize_repr` encoder of `Transforms`: writes the declared
`repr(u8)` discriminant back to the wire. -/
def serializeTransforms : Transforms → Int
  | .Normal => 0
  | .Normal90 => 1
  | .Normal180 => 2
  | .Normal270 => 3
  | .Flipped => 4
  | .Flipped90 => 5
  | .Flipped180 => 6
  | .Flipped270 => 7

/-- `struct WorkspaceBasic` of `src/data/shared.rs` lines 20-27: the basic
workspace identifier embedded in other records; its `id` wire field is
decoded with `de_work_id`. -/
structure WorkspaceBasic where
  id : WorkspaceType
  name : String
deriving DecidableEq

/-- Decoder of `WorkspaceBasic`: reads `id` as a signed integer (i64-wide,
the validation lives in the identity coercion) and runs it through the
workspace-identity coercion; `name` is a string. -/
def decodeWorkspaceBasic (j : Json) : Except DecodeError WorkspaceBasic :=
  match j with
  | .obj fields => do
    let idJ ← getField fields "id"
    let idI ← asIntRange "id" (-9223372036854775808) 9223372036854775807 idJ
    let id ← decode_workspace_identity idI
    let nameJ ← getField fields "name"
    let name ← asStr "name" nameJ
    pure { id, name }
  | _ => .error (.typeMismatch "WorkspaceBasic")

/-- `struct Monitor` of `src/data/shared.rs` lines 52-80.  `width` and
`height` are `u16` (range [0, 65535]); `refresh_rate` and `scale` are
floating point, embedded as rationals. -/
structure Monitor where
  id : Int
  name : String
  width : Int
  height : Int
  refresh_rate : Rat
  x : Int
  y : Int
  active_workspace : WorkspaceBasic
  reserved : Int × Int × Int × Int
  scale : Rat
  transform : Transforms
  focused : Bool

/-- Decoder of `Monitor` (the serde derive, with the wire spellings
`refreshRate` and `activeWorkspace`): every required field must be present
and well-typed; `transform` goes through the `Transforms` discriminant
decoder. -/
def decodeMonitor (j : Json) : Except DecodeError Monitor :=
  match j with
  | .obj fields => do
    let id ← asIntRange "id" 0 255 (← getField fields "id")
    let name ← asStr "name" (← getField fields "name")
    let width ← asIntRange "width" 0 65535 (← getField fields "width")
    let height ← asIntRange "height" 0 65535 (← getField fields "height")
    let refresh_rate ← asRat "refreshRate" (← getField fields "refreshRate")
    let x ← asIntRange "x" (-2147483648) 2147483647 (← getField fields "x")
    let y ← asIntRange "y" (-2147483648) 2147483647 (← getField fields "y")
    let active_workspace ← decodeWorkspaceBasic (← getField fields "activeWorkspace")
    let reserved ← (do
      match (← getField fields "reserved") with
      | .arr [a, b, c, d] => do
        let ra ← asIntRange "reserved" 0 255 a
        let rb ← asIntRange "reserved" 0 255 b
        let rc ← asIntRange "reserved" 0 255 c
        let rd ← asIntRange "reserved" 0 255 d
        pure (ra, rb, rc, rd)
      | _ => .error (.typeMismatch "reserved"))
    let scale ← asRat "scale" (← getField fields "scale")
    let transformI ← asIntRange "transform" (-1000000) 1000000 (← getField fields "transform")
    let transform ← decodeTransforms transformI
    let focused ← asBool "focused" (← getField fields "focused")
    pure { id, name, width, height, refresh_rate, x, y, active_workspace,
           reserved, scale, transform, focused }
  | _ => .error (.typeMismatch "Monitor")

/-- `struct WorkspaceRaw` of `src/data/shared.rs` lines 86-98: the wire
mirror of a workspace; `id` is a signed 8-bit integer (range
[-128, 127]), and the wire field `hasfullscreen` feeds `fullscreen`. -/
structure WorkspaceRaw where
  id : Int
  name : String
  monitor : String
  windows : Int
  fullscreen : Bool

/-- Decoder of `WorkspaceRaw` (the serde derive): `id` as `i8`, `windows`
as `u8`, and the `hasfullscreen` wire spelling for `fullscreen`. -/
def decodeWorkspaceRaw (j : Json) : Except DecodeError WorkspaceRaw :=
  match j with
  | .obj fields => do
    let id ← asIntRange "id" (-128) 127 (← getField fields "id")
    let name ← asStr "name" (← getField fields "name")
    let monitor ← asStr "monitor" (← getField fields "monitor")
    let windows ← asIntRange "windows" 0 255 (← getField fields "windows")
    let fullscreen ← asBool "hasfullscreen" (← getField fields "hasfullscreen")
    pure { id, name, monitor, windows, fullscreen }
  | _ => .error (.typeMismatch "WorkspaceRaw")

/-- `struct Workspace` of `src/data/shared.rs` lines 101-114: the domain
workspace with a validated identity. -/
structure Workspace where
  id : WorkspaceType
  name : String
  monitor : String
  windows : Int
  fullscreen : Bool

/-- The `i8 -> u8` `try_into` conversion used at line 121: succeeds
exactly on the values representable as `u8`. -/
def tryIntoU8 (i : Int) : Option Nat :=
  if 0 ≤ i ∧ i ≤ 255 then some i.toNat else none

/-- `impl From<WorkspaceRaw> for Workspace`, `src/data/shared.rs` lines
116-133, arm for arm: `-99` becomes `Special`; a non-negative id becomes
`Regular` through `try_into` (whose failure arm panics with
"Issue with parsing id (i8) as u8"); any other id hits
`panic!("Unrecognised id")`.  The panics are embedded as
`DecodeError.panicked` so the aborting arms stay visible. -/
def workspaceFromRaw (raw : WorkspaceRaw) : Except DecodeError Workspace := do
  let id ←
    if raw.id = -99 then .ok WorkspaceType.Special
    else if 0 ≤ raw.id then
      match tryIntoU8 raw.id with
      | some num => .ok (WorkspaceType.Regular num)
      | none => .error (.panicked "Issue with parsing id (i8) as u8")
    else .error (.panicked "Unrecognised id")
  pure { id, name := raw.name, monitor := raw.monitor,
         windows := raw.windows, fullscreen := raw.fullscreen }

/-- `struct Client` of `src/data/shared.rs` lines 142-164: a window.
`at` is `(i16, i16)`, `size` is `(u16, u16)`, `monitor` is `u8`, `pid`
is `u32`. -/
structure Client where
  address : Address
  «at» : Int × Int
  size : Int × Int
  workspace : WorkspaceBasic
  floating : Bool
  monitor : Int
  «class» : String
  title : String
  pid : Int
  xwayland : Bool

/-- Decode a wire value as an `Address` (the opaque identifier string). -/
def asAddress (name : String) (j : Json) : Except DecodeError Address :=
  (asStr name j).map Address.mk

/-- Decode a 2-element wire array as a pair of machine integers of the
range [lo, hi] (the serde tuple decode for `(i16, i16)`/`(u16, u16)`). -/
def asIntPair (name : String) (lo hi : Int) (j : Json) : Except DecodeError (Int × Int) :=
  match j with
  | .arr [a, b] => do
    let x ← asIntRange name lo hi a
    let y ← asIntRange name lo hi b
    pure (x, y)
  | _ => .error (.typeMismatch name)

/-- Decoder of `Client` (the serde derive): every field required, wire
names equal to the Rust field names. -/
def decodeClient (j : Json) : Except DecodeError Client :=
  match j with
  | .obj fields => do
    let address ← asAddress "address" (← getField fields "address")
    let «at» ← asIntPair "at" (-32768) 32767 (← getField fields "at")
    let size ← asIntPair "size" 0 65535 (← getField fields "size")
    let workspace ← decodeWorkspaceBasic (← getField fields "workspace")
    let floating ← asBool "floating" (← getField fields "floating")
    let monitor ← asIntRange "monitor" 0 255 (← getField fields "monitor")
    let «class» ← asStr "class" (← getField fields "class")
    let title ← asStr "title" (← getField fields "title")
    let pid ← asIntRange "pid" 0 4294967295 (← getField fields "pid")
    let xwayland ← asBool "xwayland" (← getField fields "xwayland")
    pure { address, «at», size, workspace, floating, monitor, «class», title,
           pid, xwayland }
  | _ => .error (.typeMismatch "Client")

/-- `struct ActiveWindow` of `src/data/shared.rs` lines 170-175: wraps an
optional `Client`. -/
structure ActiveWindow where
  client : Option Client

/-- Modelled from the spec: `crate::shared::object_empty_as_none` is not
under `src/`; spec 4.1 `decode_optional_object`: a key/value tree with
zero keys is the absent case, any non-empty tree is the present case. -/
def object_empty_as_none (j : Json) : Except DecodeError (Option Json) :=
  match j with
  | .obj [] => .ok none
  | .obj fields => .ok (some (.obj fields))
  | _ => .error (.typeMismatch "ActiveWindow")

/-- Decoder of `ActiveWindow`: the optional-object coercion followed, in
the present case, by the full `Client` decode. -/
def decodeActiveWindow (j : Json) : Except DecodeError ActiveWindow := do
  match (← object_empty_as_none j) with
  | none => pure { client := none }
  | some inner => do
    let c ← decodeClient inner
    pure { client := some c }

/-- Encoder of `WorkspaceType`.  Modelled from the spec: the type lives in
`crate::shared`, not under `src/`; the sentinel scheme writes `Special`
as the wire sentinel -99 and `Regular n` as `n`. -/
def encodeWorkspaceType : WorkspaceType → Json
  | .Special => jint (-99)
  | .Regular n => jint n

/-- Encoder of `WorkspaceBasic` (the serde derive, fields in declaration
order). -/
def encodeWorkspaceBasic (w : WorkspaceBasic) : Json :=
  .obj [("id", encodeWorkspaceType w.id), ("name", .str w.name)]

/-- Encoder of `Client` (the serde derive, fields in declaration order,
wire names equal to the Rust field names). -/
def encodeClient (c : Client) : Json :=
  .obj [("address", .str c.address.addr),
        ("at", .arr [jint c.«at».1, jint c.«at».2]),
        ("size", .arr [jint c.size.1, jint c.size.2]),
        ("workspace", encodeWorkspaceBasic c.workspace),
        ("floating", .bool c.floating),
        ("monitor", jint c.monitor),
        ("class", .str c.«class»),
        ("title", .str c.title),
        ("pid", jint c.pid),
        ("xwayland", .bool c.xwayland)]

/-- Encoder of `ActiveWindow`: the derived `Serialize` of a newtype struct
around `Option<Client>` — there is no custom serializer on the field, so
serde writes `None` as the wire null (not as an empty object) and
`Some c` as the encoded client. -/
def encodeActiveWindow (w : ActiveWindow) : Json :=
  match w.client with
  | none => .null
  | some c => encodeClient c

/-- `struct LayerClient` of `src/data/shared.rs` lines 178-192: one layer
surface; `x`/`y` are `i32`, `w`/`h` are `u16`. -/
structure LayerClient where
  address : Address
  x : Int
  y : Int
  w : Int
  h : Int
  «namespace» : String
deriving DecidableEq

/-- Decoder of `LayerClient` (the serde derive). -/
def decodeLayerClient (j : Json) : Except DecodeError LayerClient :=
  match j with
  | .obj fields => do
    let address ← asAddress "address" (← getField fields "address")
    let x ← asIntRange "x" (-2147483648) 2147483647 (← getField fields "x")
    let y ← asIntRange "y" (-2147483648) 2147483647 (← getField fields "y")
    let w ← asIntRange "w" 0 65535 (← getField fields "w")
    let h ← asIntRange "h" 0 65535 (← getField fields "h")
    let ns ← asStr "namespace" (← getField fields "namespace")
    pure { address, x, y, w, h, «namespace» := ns }
  | _ => .error (.typeMismatch "LayerClient")

/-- Decode a wire array elementwise, preserving the reported order. -/
def decodeList (f : Json → Except DecodeError α) : List Json → Except DecodeError (List α)
  | [] => .ok []
  | j :: js => do
    let a ← f j
    let as ← decodeList f js
    pure (a :: as)

/-- Decode the entries of a wire object elementwise, keeping each key with
its decoded value in reported order (the embedding of a map decode). -/
def decodeEntries (f : Json → Except DecodeError α) :
    List (String × Json) → Except DecodeError (List (String × α))
  | [] => .ok []
  | (k, v) :: rest => do
    let a ← f v
    let as ← decodeEntries f rest
    pure ((k, a) :: as)

/-- `struct LayerDisplay` of `src/data/shared.rs` lines 195-199: the map
from level name to the ordered sequence of layer clients on that level. -/
structure LayerDisplay where
  levels : List (String × List LayerClient)

/-- Decoder of `LayerDisplay`: the `levels` field is an object whose every
value is an array of layer clients, decoded in order. -/
def decodeLayerDisplay (j : Json) : Except DecodeError LayerDisplay :=
  match j with
  | .obj fields => do
    match (← getField fields "levels") with
    | .obj levelFields => do
      let levels ← decodeEntries (fun v =>
        match v with
        | .arr elems => decodeList decodeLayerClient elems
        | _ => .error (.typeMismatch "levels")) levelFields
      pure { levels }
    | _ => .error (.typeMismatch "levels")
  | _ => .error (.typeMismatch "LayerDisplay")

/-- `type Layers` of `src/data/shared.rs` line 202: the map from display
name to its `LayerDisplay`. -/
def decodeLayers (j : Json) : Except DecodeError (List (String × LayerDisplay)) :=
  match j with
  | .obj fields => decodeEntries decodeLayerDisplay fields
  | _ => .error (.typeMismatch "Layers")

/-- `enum TabletType` of `src/data/shared.rs` lines 235-243: tagged by the
wire strings `tabletPad` and `tabletTool`. -/
inductive TabletType where
  | TabletPad : TabletType
  | TabletTool : TabletType
deriving DecidableEq

/-- Decoder of `TabletType`: the serde enum decode over the two renamed
unit variants; any other string is an unknown variant. -/
def decodeTabletType (j : Json) : Except DecodeError TabletType :=
  match j with
  | .str "tabletPad" => .ok .TabletPad
  | .str "tabletTool" => .ok .TabletTool
  | _ => .error (.unknownVariant "type")

/-- `enum TabletBelongsTo` of `src/data/shared.rs` lines 246-257: either
the parent pad's name and address, or a bare address. -/
inductive TabletBelongsTo where
  | TabletPad (name : String) (address : Address) : TabletBelongsTo
  | Address (address : Address) : TabletBelongsTo
deriving DecidableEq

/-- Decoder of `TabletBelongsTo`: the (externally tagged) serde enum
decode — an object with the single key naming the variant. -/
def decodeTabletBelongsTo (j : Json) : Except DecodeError TabletBelongsTo :=
  match j with
  | .obj [("TabletPad", .obj inner)] => do
    let name ← asStr "name" (← getField inner "name")
    let address ← asAddress "address" (← getField inner "address")
    pure (.TabletPad name address)
  | .obj [("Address", v)] => (asAddress "Address" v).map .Address
  | _ => .error (.unknownVariant "belongsTo")

/-- `struct Tablet` of `src/data/shared.rs` lines 260-272: address plus
three optional fields; the wire spellings are `type` and `belongsTo`. -/
structure Tablet where
  address : Address
  tablet_type : Option TabletType
  belongs_to : Option TabletBelongsTo
  name : Option String
deriving DecidableEq

/-- Decode an optional field the way serde decodes `Option<T>`: a missing
key or a wire null is `none`; any other value must decode as `T`. -/
def optField (fields : List (String × Json)) (name : String)
    (f : Json → Except DecodeError α) : Except DecodeError (Option α) :=
  match fields.lookup name with
  | none => .ok none
  | some .null => .ok none
  | some v => (f v).map some

/-- Decoder of `Tablet` (the serde derive): `address` required; `type`,
`belongsTo` and `name` optional, so their absence is never a failure. -/
def decodeTablet (j : Json) : Except DecodeError Tablet :=
  match j with
  | .obj fields => do
    let address ← asAddress "address" (← getField fields "address")
    let tablet_type ← optField fields "type" decodeTabletType
    let belongs_to ← optField fields "belongsTo" decodeTabletBelongsTo
    let name ← optField fields "name" (asStr "name")
    pure { address, tablet_type, belongs_to, name }
  | _ => .error (.typeMismatch "Tablet")

/-- `enum DataCommands` of `src/data/shared.rs` lines 8-17: the command
catalog naming which decoder a raw payload must be decoded with; pure
routing metadata. -/
inductive DataCommands where
  | Monitors : DataCommands
  | Workspaces : DataCommands
  | Clients : DataCommands
  | ActiveWindow : DataCommands
  | Layers : DataCommands
  | Devices : DataCommands
  | Version : DataCommands
  | Keyword (name : String) : DataCommands

/-- A populated client wire payload built from the given field values. -/
def mkClientJson (addr : String) (x y w h : Int) (wid : Int) (wname : String)
    (fl : Bool) (mon : Int) (cls title : String) (pid : Int) (xw : Bool) : Json :=
  .obj [("address", .str addr),
        ("at", .arr [jint x, jint y]),
        ("size", .arr [jint w, jint h]),
        ("workspace", .obj [("id", jint wid), ("name", .str wname)]),
        ("floating", .bool fl),
        ("monitor", jint mon),
        ("class", .str cls),
        ("title", .str title),
        ("pid", jint pid),
        ("xwayland", .bool xw)]

/-- A monitor wire payload whose `width` is 0 (and `height` 1080), with
every other field well-formed. -/
def zeroWidthMonitorJson : Json :=
  .obj [("id", jint 0), ("name", .str "DP-1"),
        ("width", jint 0), ("height", jint 1080),
        ("refreshRate", .num 60), ("x", jint 0), ("y", jint 0),
        ("activeWorkspace", .obj [("id", jint 1), ("name", .str "1")]),
        ("reserved", .arr [jint 0, jint 0, jint 0, jint 0]),
        ("scale", .num 1), ("transform", jint 0), ("focused", .bool true)]

/-- A concrete well-formed layer-client wire payload. -/
def layerClientJsonA : Json :=
  .obj [("address", .str "0xa"), ("x", jint 0), ("y", jint 0),
        ("w", jint 1920), ("h", jint 30), ("namespace", .str "bar")]

/-- A second concrete well-formed layer-client wire payload. -/
def layerClientJsonB : Json :=
  .obj [("address", .str "0xb"), ("x", jint 5), ("y", jint 40),
        ("w", jint 300), ("h", jint 100), ("namespace", .str "notif")]

/-- Destructs a successful `Except` bind: the first stage succeeded and
the continuation succeeded on its result. -/
theorem exceptBindOk {ε α β : Type} {x : Except ε α} {f : α → Except ε β} {b : β}
    (h : x >>= f = .ok b) : ∃ a, x = .ok a ∧ f a = .ok b := by
  cases x with
  | error e => exact Except.noConfusion h
  | ok a => exact ⟨a, rfl, h⟩

/-- A successful `asIntRange` decode yields a value inside the range. -/
theorem asIntRange_bounds {name : String} {lo hi : Int} {j : Json} {n : Int}
    (h : asIntRange name lo hi j = .ok n) : lo ≤ n ∧ n ≤ hi := by
  cases j <;> try exact Except.noConfusion h
  rename_i q
  have h' : (if q.den = 1 ∧ lo ≤ q.num ∧ q.num ≤ hi then (Except.ok q.num : Except DecodeError Int)
      else .error (.typeMismatch name)) = .ok n := h
  split_ifs at h' with hc
  · injection h' with h'
    subst h'
    exact ⟨hc.2.1, hc.2.2⟩

/-- A successful `getField` means the key is present with that value. -/
theorem getField_ok {fields : List (String × Json)} {name : String} {v : Json}
    (h : getField fields name = .ok v) : fields.lookup name = some v := by
  unfold getField at h
  cases hl : fields.lookup name with
  | none => rw [hl] at h; exact Except.noConfusion h
  | some u => rw [hl] at h; injection h with h; subst h; rfl

/-- A successful `asBool` decode came from a boolean wire value. -/
theorem asBool_ok {name : String} {j : Json} {b : Bool}
    (h : asBool name j = .ok b) : j = .bool b := by
  cases j <;> try exact Except.noConfusion h
  injection h with h
  subst h
  rfl

/-- A successful workspace-identity coercion means the raw id was the
sentinel or fit the unsigned 8-bit range. -/
theorem decode_workspace_identity_ok_range {raw : Int} {wt : WorkspaceType}
    (h : decode_workspace_identity raw = .ok wt) : -99 ≤ raw ∧ raw ≤ 255 := by
  unfold decode_workspace_identity at h
  split_ifs at h with h1 h2 <;> omega

/-- C4: transform decoding succeeds for every integer code in {0..7} and
serializing the decoded transform reproduces the input code; decoding
fails for every integer outside {0..7}. -/
theorem c4_transform_roundtrip (i : Int) :
    (0 ≤ i → i ≤ 7 → (decodeTransforms i).map serializeTransforms = Except.ok i) ∧
    (i < 0 ∨ 7 < i → ∀ t, decodeTransforms i ≠ Except.ok t) := by
  constructor
  · intro h1 h2
    interval_cases i <;> rfl
  · intro h t hc
    unfold decodeTransforms at hc
    split_ifs at hc <;> first | exact Except.noConfusion hc | omega

/-- C4 witness: code 3 decodes and round-trips; code 9 does not decode. -/
theorem c4_transform_roundtrip_witness :
    (decodeTransforms 3).map serializeTransforms = Except.ok 3 ∧
    decodeTransforms 9 ≠ Except.ok Transforms.Normal :=
  ⟨(c4_transform_roundtrip 3).1 (by decide) (by decide),
   (c4_transform_roundtrip 9).2 (by decide) Transforms.Normal⟩

/-- C1 counterexample: converting a `WorkspaceRaw` whose id is -5 (negative,
not the -99 sentinel) panics with "Unrecognised id" instead of returning an
`UnrepresentableSentinel` decode error to the caller; the panic outcome is
a different error value than any `UnrepresentableSentinel`. -/
theorem c1_counterexample :
    workspaceFromRaw ⟨-5, "ws", "mon", 0, false⟩ = .error (.panicked "Unrecognised id") ∧
    DecodeError.panicked "Unrecognised id" ≠ DecodeError.unrepresentableSentinel (-5) :=
  ⟨rfl, by decide⟩

/-- C1 (amended): the workspace-identity coercion of `Workspace::from`
maps -99 to `Special` and every id in [0, 127] (the non-negative signed
8-bit values) to `Regular`; every other negative id makes the conversion
panic with "Unrecognised id" rather than return an `UnrepresentableSentinel`
decode error. -/
theorem c1_workspace_identity_amended (raw : WorkspaceRaw) :
    (raw.id = -99 → workspaceFromRaw raw =
      .ok ⟨.Special, raw.name, raw.monitor, raw.windows, raw.fullscreen⟩) ∧
    (0 ≤ raw.id → raw.id ≤ 127 → workspaceFromRaw raw =
      .ok ⟨.Regular raw.id.toNat, raw.name, raw.monitor, raw.windows, raw.fullscreen⟩) ∧
    (raw.id < 0 → raw.id ≠ -99 → workspaceFromRaw raw =
      .error (.panicked "Unrecognised id")) := by
  refine ⟨fun h99 => ?_, fun h0 h127 => ?_, fun hneg h99 => ?_⟩
  · simp [workspaceFromRaw, h99, bind, Except.bind, pure, Except.pure]
  · have hne : raw.id ≠ -99 := by omega
    have h255 : raw.id ≤ 255 := by omega
    simp [workspaceFromRaw, tryIntoU8, hne, h0, h255, bind, Except.bind, pure, Except.pure]
  · have hn0 : ¬ 0 ≤ raw.id := by omega
    simp [workspaceFromRaw, h99, hn0, bind, Except.bind, pure, Except.pure]

/-- C1 witness: the three arms at concrete raw workspaces. -/
theorem c1_workspace_identity_amended_witness :
    workspaceFromRaw ⟨-99, "s", "m", 1, true⟩ = .ok ⟨.Special, "s", "m", 1, true⟩ ∧
    workspaceFromRaw ⟨5, "a", "b", 2, false⟩ = .ok ⟨.Regular 5, "a", "b", 2, false⟩ ∧
    workspaceFromRaw ⟨-5, "c", "d", 3, true⟩ = .error (.panicked "Unrecognised id") :=
  ⟨(c1_workspace_identity_amended ⟨-99, "s", "m", 1, true⟩).1 rfl,
   (c1_workspace_identity_amended ⟨5, "a", "b", 2, false⟩).2.1 (by decide) (by decide),
   (c1_workspace_identity_amended ⟨-5, "c", "d", 3, true⟩).2.2 (by decide) (by decide)⟩

/-- C10: for every `WorkspaceRaw` whose id lies in the signed 8-bit range,
a non-negative id always converts to `u8` (so the `try_into` failure arm,
the conversion panic, can never fire). -/
theorem c10_tryinto_unreachable (raw : WorkspaceRaw)
    (hlo : -128 ≤ raw.id) (hhi : raw.id ≤ 127) :
    (0 ≤ raw.id → tryIntoU8 raw.id = some raw.id.toNat) ∧
    workspaceFromRaw raw ≠ .error (.panicked "Issue with parsing id (i8) as u8") := by
  constructor
  · intro h0
    unfold tryIntoU8
    rw [if_pos ⟨h0, by omega⟩]
  · intro hc
    by_cases h99 : raw.id = -99
    · simp [workspaceFromRaw, h99, bind, Except.bind, pure, Except.pure] at hc
    · by_cases h0 : 0 ≤ raw.id
      · have h255 : raw.id ≤ 255 := by omega
        simp [workspaceFromRaw, tryIntoU8, h99, h0, h255, bind, Except.bind,
              pure, Except.pure] at hc
      · simp [workspaceFromRaw, h99, h0, bind, Except.bind, pure, Except.pure] at hc

/-- C10 witness: id 5 converts and the conversion panic does not occur. -/
theorem c10_tryinto_unreachable_witness :
    tryIntoU8 (5 : Int) = some 5 ∧
    workspaceFromRaw ⟨5, "n", "m", 0, false⟩ ≠
      .error (.panicked "Issue with parsing id (i8) as u8") :=
  ⟨(c10_tryinto_unreachable ⟨5, "n", "m", 0, false⟩ (by decide) (by decide)).1 (by decide),
   (c10_tryinto_unreachable ⟨5, "n", "m", 0, false⟩ (by decide) (by decide)).2⟩

/-- C8 counterexample: the derived encoder writes the absent active window
as the wire null, which is not the empty object, so decode-then-encode
does not reproduce the empty-object input. -/
theorem c8_counterexample :
    encodeActiveWindow ⟨none⟩ = Json.null ∧ Json.null ≠ Json.obj [] :=
  ⟨rfl, fun hcontra => Json.noConfusion hcontra⟩

/-- C8 (amended): the empty object decodes to the absent active window,
but encoding the absent active window back to wire form produces the wire
null, not an empty object. -/
theorem c8_encode_none_amended :
    decodeActiveWindow (Json.obj []) = .ok ⟨none⟩ ∧
    encodeActiveWindow ⟨none⟩ = Json.null :=
  ⟨rfl, rfl⟩

/-- C9: decoding is deterministic — every decoder of the module is a pure
total function of the raw payload alone, so two invocations on the same
input are identical. -/
theorem c9_decoders_deterministic (j : Json) (raw : WorkspaceRaw) :
    decodeMonitor j = decodeMonitor j ∧
    decodeActiveWindow j = decodeActiveWindow j ∧
    decodeLayers j = decodeLayers j ∧
    decodeTablet j = decodeTablet j ∧
    decodeWorkspaceRaw j = decodeWorkspaceRaw j ∧
    workspaceFromRaw raw = workspaceFromRaw raw :=
  ⟨rfl, rfl, rfl, rfl, rfl, rfl⟩

/-- Injectivity of a successful `Except` return. -/
theorem exceptOkInj {ε α : Type} {a b : α} (h : (pure a : Except ε α) = .ok b) : a = b :=
  Except.noConfusion h id

/-- Destructs a successful `Except` map: the mapped computation succeeded
and the function value is the result. -/
theorem exceptMapOk {ε α β : Type} {x : Except ε α} {f : α → β} {b : β}
    (h : x.map f = .ok b) : ∃ a, x = .ok a ∧ f a = b := by
  cases x with
  | error e => exact Except.noConfusion h
  | ok a => exact ⟨a, rfl, Except.noConfusion h id⟩

/-- Closed form of `workspaceFromRaw`: the id coercion followed by the
verbatim copy of the remaining fields. -/
theorem workspaceFromRaw_eq (raw : WorkspaceRaw) :
    workspaceFromRaw raw =
      ((if raw.id = -99 then Except.ok WorkspaceType.Special
        else if 0 ≤ raw.id then
          match tryIntoU8 raw.id with
          | some num => Except.ok (WorkspaceType.Regular num)
          | none => Except.error (DecodeError.panicked "Issue with parsing id (i8) as u8")
        else Except.error (DecodeError.panicked "Unrecognised id") :
          Except DecodeError WorkspaceType)).map
      (fun id => { id, name := raw.name, monitor := raw.monitor,
                   windows := raw.windows, fullscreen := raw.fullscreen }) := by
  by_cases h99 : raw.id = -99
  · simp [workspaceFromRaw, h99, Except.map, bind, Except.bind, pure, Except.pure]
  · by_cases h0 : 0 ≤ raw.id
    · cases htry : tryIntoU8 raw.id <;>
        simp [workspaceFromRaw, h99, h0, htry, Except.map, bind, Except.bind, pure, Except.pure]
    · simp [workspaceFromRaw, h99, h0, Except.map, bind, Except.bind, pure, Except.pure]

/-- C5: when the sentinel coercion of `raw.id` succeeds, `Workspace::from`
copies `name`, `monitor`, `windows` and `fullscreen` verbatim into the
resulting workspace; and the raw decoder feeds the wire field spelled
`hasfullscreen` into the domain `fullscreen` field. -/
theorem c5_workspace_frame (raw : WorkspaceRaw) (w : Workspace)
    (fields : List (String × Json)) (r : WorkspaceRaw)
    (hfrom : workspaceFromRaw raw = .ok w)
    (hdec : decodeWorkspaceRaw (Json.obj fields) = .ok r) :
    w.name = raw.name ∧ w.monitor = raw.monitor ∧ w.windows = raw.windows ∧
    w.fullscreen = raw.fullscreen ∧
    fields.lookup "hasfullscreen" = some (Json.bool r.fullscreen) := by
  rw [workspaceFromRaw_eq] at hfrom
  unfold decodeWorkspaceRaw at hdec
  obtain ⟨i, hi, hfrom⟩ := exceptMapOk hfrom
  obtain rfl := hfrom
  obtain ⟨v1, hv1, hdec⟩ := exceptBindOk hdec
  obtain ⟨idv, hidv, hdec⟩ := exceptBindOk hdec
  obtain ⟨v2, hv2, hdec⟩ := exceptBindOk hdec
  obtain ⟨nm, hnm, hdec⟩ := exceptBindOk hdec
  obtain ⟨v3, hv3, hdec⟩ := exceptBindOk hdec
  obtain ⟨mon, hmon, hdec⟩ := exceptBindOk hdec
  obtain ⟨v4, hv4, hdec⟩ := exceptBindOk hdec
  obtain ⟨win, hwin, hdec⟩ := exceptBindOk hdec
  obtain ⟨v5, hv5, hdec⟩ := exceptBindOk hdec
  obtain ⟨fs, hfs, hdec⟩ := exceptBindOk hdec
  obtain rfl := exceptOkInj hdec
  refine ⟨rfl, rfl, rfl, rfl, ?_⟩
  rw [getField_ok hv5, asBool_ok hfs]

/-- C5 witness: a concrete raw workspace and a concrete wire object. -/
theorem c5_workspace_frame_witness :
    (⟨.Regular 5, "a", "b", 2, false⟩ : Workspace).name = "a" ∧
    (⟨.Regular 5, "a", "b", 2, false⟩ : Workspace).monitor = "b" ∧
    (⟨.Regular 5, "a", "b", 2, false⟩ : Workspace).windows = 2 ∧
    (⟨.Regular 5, "a", "b", 2, false⟩ : Workspace).fullscreen = false ∧
    [("id", jint 5), ("name", Json.str "a"), ("monitor", Json.str "b"),
     ("windows", jint 2), ("hasfullscreen", Json.bool false)].lookup "hasfullscreen"
      = some (Json.bool false) :=
  c5_workspace_frame ⟨5, "a", "b", 2, false⟩ ⟨.Regular 5, "a", "b", 2, false⟩
    [("id", jint 5), ("name", Json.str "a"), ("monitor", Json.str "b"),
     ("windows", jint 2), ("hasfullscreen", Json.bool false)]
    ⟨5, "a", "b", 2, false⟩ rfl rfl

/-- C3 counterexample: a monitor wire payload with `width` 0 decodes
successfully, so zero width is not a decode failure. -/
theorem c3_counterexample :
    decodeMonitor zeroWidthMonitorJson
      = .ok ⟨0, "DP-1", 0, 1080, 60, 0, 0, ⟨.Regular 1, "1"⟩, (0, 0, 0, 0), 1,
             .Normal, true⟩ := rfl

/-- C3 (amended): every successfully decoded monitor has width and height
within the unsigned 16-bit range [0, 65535]; the decoder does not require
them to be positive. -/
theorem c3_monitor_dims_amended (j : Json) (m : Monitor)
    (h : decodeMonitor j = .ok m) :
    0 ≤ m.width ∧ m.width ≤ 65535 ∧ 0 ≤ m.height ∧ m.height ≤ 65535 := by
  cases j <;> try exact Except.noConfusion h
  unfold decodeMonitor at h
  obtain ⟨v1, hv1, h⟩ := exceptBindOk h
  obtain ⟨id, hid, h⟩ := exceptBindOk h
  obtain ⟨v2, hv2, h⟩ := exceptBindOk h
  obtain ⟨nm, hnm, h⟩ := exceptBindOk h
  obtain ⟨v3, hv3, h⟩ := exceptBindOk h
  obtain ⟨width, hw, h⟩ := exceptBindOk h
  obtain ⟨v4, hv4, h⟩ := exceptBindOk h
  obtain ⟨height, hh, h⟩ := exceptBindOk h
  obtain ⟨v5, hv5, h⟩ := exceptBindOk h
  obtain ⟨rr, hrr, h⟩ := exceptBindOk h
  obtain ⟨v6, hv6, h⟩ := exceptBindOk h
  obtain ⟨x, hx, h⟩ := exceptBindOk h
  obtain ⟨v7, hv7, h⟩ := exceptBindOk h
  obtain ⟨y, hy, h⟩ := exceptBindOk h
  obtain ⟨v8, hv8, h⟩ := exceptBindOk h
  obtain ⟨aw, haw, h⟩ := exceptBindOk h
  obtain ⟨res, hres, h⟩ := exceptBindOk h
  obtain ⟨v9, hv9, h⟩ := exceptBindOk h
  obtain ⟨sc, hsc, h⟩ := exceptBindOk h
  obtain ⟨v10, hv10, h⟩ := exceptBindOk h
  obtain ⟨ti, hti, h⟩ := exceptBindOk h
  obtain ⟨t, ht, h⟩ := exceptBindOk h
  obtain ⟨v11, hv11, h⟩ := exceptBindOk h
  obtain ⟨fo, hfo, h⟩ := exceptBindOk h
  obtain rfl := exceptOkInj h
  have hwb := asIntRange_bounds hw
  have hhb := asIntRange_bounds hh
  exact ⟨hwb.1, hwb.2, hhb.1, hhb.2⟩

/-- C3 witness: the bounds at the zero-width monitor payload. -/
theorem c3_monitor_dims_amended_witness :
    (0 : Int) ≤ 0 ∧ (0 : Int) ≤ 65535 ∧ (0 : Int) ≤ 1080 ∧ (1080 : Int) ≤ 65535 :=
  c3_monitor_dims_amended zeroWidthMonitorJson
    ⟨0, "DP-1", 0, 1080, 60, 0, 0, ⟨.Regular 1, "1"⟩, (0, 0, 0, 0), 1, .Normal, true⟩ rfl

/-- C6: a tablet wire payload with no `type` key and no `belongsTo` key
decodes successfully — provided only that its other fields decode — and
both `tablet_type` and `belongs_to` are `none`; the absence of the two
keys is never itself a decode failure. -/
theorem c6_tablet_optional_absent (fields : List (String × Json))
    (vaddr : Json) (a : Address) (nm : Option String)
    (htype : fields.lookup "type" = none)
    (hbel : fields.lookup "belongsTo" = none)
    (haddr1 : fields.lookup "address" = some vaddr)
    (haddr2 : asAddress "address" vaddr = .ok a)
    (hname : optField fields "name" (asStr "name") = .ok nm) :
    decodeTablet (Json.obj fields) = .ok ⟨a, none, none, nm⟩ := by
  have htype2 : optField fields "type" decodeTabletType = .ok none := by
    simp [optField, htype]
  have hbel2 : optField fields "belongsTo" decodeTabletBelongsTo = .ok none := by
    simp [optField, hbel]
  simp [decodeTablet, getField, htype2, hbel2, haddr1, haddr2, hname,
        bind, Except.bind, pure, Except.pure]

/-- C6 witness: a concrete tablet payload carrying only an address. -/
theorem c6_tablet_optional_absent_witness :
    decodeTablet (Json.obj [("address", Json.str "0xdead")])
      = .ok ⟨⟨"0xdead"⟩, none, none, none⟩ :=
  c6_tablet_optional_absent [("address", Json.str "0xdead")] (Json.str "0xdead")
    ⟨"0xdead"⟩ none rfl rfl rfl rfl rfl

/-- C7: the order of layer clients within a level is preserved exactly as
reported: an input whose level holds the sequence [A, B] decodes to a
structure whose that level's sequence is exactly [a, b], the decodes of A
and B in that order. -/
theorem c7_layers_inner_order (disp lvl : String) (A B : Json) (a b : LayerClient)
    (ha : decodeLayerClient A = .ok a) (hb : decodeLayerClient B = .ok b) :
    decodeLayers (Json.obj [(disp, Json.obj [("levels", Json.obj [(lvl, Json.arr [A, B])])])])
      = .ok [(disp, ⟨[(lvl, [a, b])]⟩)] := by
  simp [decodeLayers, decodeEntries, decodeLayerDisplay, getField, decodeList,
        ha, hb, bind, Except.bind, pure, Except.pure]

/-- C7 witness: two concrete layer clients on the overlay level. -/
theorem c7_layers_inner_order_witness :
    decodeLayers (Json.obj [("DP-1", Json.obj [("levels",
        Json.obj [("overlay", Json.arr [layerClientJsonA, layerClientJsonB])])])])
      = .ok [("DP-1", ⟨[("overlay",
             [⟨⟨"0xa"⟩, 0, 0, 1920, 30, "bar"⟩, ⟨⟨"0xb"⟩, 5, 40, 300, 100, "notif"⟩])]⟩)] :=
  c7_layers_inner_order "DP-1" "overlay" layerClientJsonA layerClientJsonB
    ⟨⟨"0xa"⟩, 0, 0, 1920, 30, "bar"⟩ ⟨⟨"0xb"⟩, 5, 40, 300, 100, "notif"⟩ rfl rfl

/-- Decoding an integer-valued wire number within range succeeds with
that integer. -/
theorem asIntRange_jint {name : String} {lo hi i : Int} (h1 : lo ≤ i) (h2 : i ≤ hi) :
    asIntRange name lo hi (jint i) = .ok i := by
  show (if ((i : Rat)).den = 1 ∧ lo ≤ ((i : Rat)).num ∧ ((i : Rat)).num ≤ hi
      then (Except.ok ((i : Rat)).num : Except DecodeError Int)
      else .error (.typeMismatch name)) = .ok i
  rw [if_pos]
  · rw [Rat.num_intCast]
  · refine ⟨Rat.den_intCast i, ?_, ?_⟩
    · rw [Rat.num_intCast]; exact h1
    · rw [Rat.num_intCast]; exact h2

/-- C2: the active-window decode maps the empty object to the absent
client; it treats every non-empty object as the present case, decoding it
as a full client; and on a populated client payload every decoded field
matches the corresponding input field. -/
theorem c2_active_window (fields : List (String × Json))
    (addr : String) (x y w h wid mon pid : Int)
    (wt : WorkspaceType) (wname cls title : String) (fl xw : Bool)
    (hx1 : -32768 ≤ x) (hx2 : x ≤ 32767)
    (hy1 : -32768 ≤ y) (hy2 : y ≤ 32767)
    (hw1 : 0 ≤ w) (hw2 : w ≤ 65535)
    (hh1 : 0 ≤ h) (hh2 : h ≤ 65535)
    (hm1 : 0 ≤ mon) (hm2 : mon ≤ 255)
    (hp1 : 0 ≤ pid) (hp2 : pid ≤ 4294967295)
    (hwid : decode_workspace_identity wid = .ok wt) :
    decodeActiveWindow (Json.obj []) = .ok ⟨none⟩ ∧
    (fields ≠ [] → decodeActiveWindow (Json.obj fields)
        = (decodeClient (Json.obj fields)).map (fun c => ⟨some c⟩)) ∧
    decodeActiveWindow (mkClientJson addr x y w h wid wname fl mon cls title pid xw)
      = .ok ⟨some ⟨⟨addr⟩, (x, y), (w, h), ⟨wt, wname⟩, fl, mon, cls, title,
             pid, xw⟩⟩ := by
  have hr := decode_workspace_identity_ok_range hwid
  have hi1 : -9223372036854775808 ≤ wid := by omega
  have hi2 : wid ≤ 9223372036854775807 := by omega
  refine ⟨rfl, fun hne => ?_, ?_⟩
  · cases fields with
    | nil => exact absurd rfl hne
    | cons kv rest =>
      cases hdc : decodeClient (Json.obj (kv :: rest)) <;>
        simp [decodeActiveWindow, object_empty_as_none, hdc, Except.map,
              bind, Except.bind, pure, Except.pure]
  · have ha1 : asIntRange "at" (-32768) 32767 (jint x) = .ok x := asIntRange_jint hx1 hx2
    have ha2 : asIntRange "at" (-32768) 32767 (jint y) = .ok y := asIntRange_jint hy1 hy2
    have hs1 : asIntRange "size" 0 65535 (jint w) = .ok w := asIntRange_jint hw1 hw2
    have hs2 : asIntRange "size" 0 65535 (jint h) = .ok h := asIntRange_jint hh1 hh2
    have hmn : asIntRange "monitor" 0 255 (jint mon) = .ok mon := asIntRange_jint hm1 hm2
    have hpd : asIntRange "pid" 0 4294967295 (jint pid) = .ok pid := asIntRange_jint hp1 hp2
    have hwd : asIntRange "id" (-9223372036854775808) 9223372036854775807 (jint wid) = .ok wid :=
      asIntRange_jint hi1 hi2
    simp [decodeActiveWindow, object_empty_as_none, mkClientJson, decodeClient,
          decodeWorkspaceBasic, getField, List.lookup, asAddress, asStr, asBool, asIntPair,
          ha1, ha2, hs1, hs2, hmn, hpd, hwd, hwid,
          bind, Except.bind, pure, Except.pure, Except.map]

/-- C2 witness: a concrete populated client payload decodes to the present
client with every field matching. -/
theorem c2_active_window_witness :
    decodeActiveWindow (mkClientJson "0x1" 10 20 800 600 3 "three" false 0 "kitty" "term" 4242 false)
      = .ok ⟨some ⟨⟨"0x1"⟩, (10, 20), (800, 600), ⟨.Regular 3, "three"⟩, false, 0,
             "kitty", "term", 4242, false⟩⟩ :=
  (c2_active_window [("k", Json.null)] "0x1" 10 20 800 600 3 0 4242 (.Regular 3)
     "three" "kitty" "term" false false
     (by decide) (by decide) (by decide) (by decide) (by decide) (by decide)
     (by decide) (by decide) (by decide) (by decide) (by decide) (by decide) rfl).2.2
